import Mathlib

/-!
Shallow embedding of the safety escalation engine of the Women-Safety-App
repository, together with proofs about it.

The embedding covers:
  * the route-deviation / escalation logic of `src/Main.tsx`
    (`checkRouteDeviation`, `showDeviationNotification`, the response-window
    timer callback, the notification-response listener, `sendEmergencyAlert`);
  * the voice-trigger pipeline of `src/src/services/VoiceService.ts`
    (`startFullRecording`, `stopRecordingAndSend`, `sendAudioToContacts`);
  * the variant message construction of the unnamed main-screen variant
    (`src/unnamed/part_000`, `sendEmergencyAlert`).

External collaborators (the turf distance library, the SMS channel, blob
storage, the notification gateway) are modelled as parameters: the distance
computation is an arbitrary function argument, SMS availability and send
results are environment fields, and upload outcomes are `Option` arguments.
Machine time is a natural number of milliseconds; the JavaScript
`now - last < window` comparisons agree with truncated natural subtraction
because a negative difference and a truncated-to-zero difference both
satisfy the `< window` test.
-/

namespace WomenSafety

/-- Coordinate produced by the position feed (`Coordinates` in Main.tsx). -/
structure Coordinates where
  latitude : ℚ
  longitude : ℚ
  accuracy : Option ℚ := none
deriving DecidableEq, Repr

/-- Emergency contact row (`EmergencyContact` in the Supabase service). -/
structure EmergencyContact where
  id : String
  name : String
  phone_number : String
deriving DecidableEq, Repr

/-! Constants from `src/Main.tsx` lines 42-44. -/

def ROUTE_DEVIATION_THRESHOLD : ℚ := 1000

def RESPONSE_TIMEOUT : ℕ := 30000

def NOTIFICATION_COOLDOWN : ℕ := 60000

/-- The pending response-window timer set by `showDeviationNotification`:
the absolute fire time (`setTimeout` scheduled at creation time plus
`RESPONSE_TIMEOUT`) and the coordinate the timeout callback closed over. -/
structure TimerInfo where
  fireAt : ℕ
  coord : Coordinates
deriving DecidableEq, Repr

/-- The mutable state of the Main.tsx escalation logic: the `location` state,
the destination (`destination.coordinates` and `destination.address`), the
`lastNotificationTime` ref, the `responseTimer` ref (modelled as the
currently outstanding, not-yet-fired and not-yet-cleared timeout; `setTimeout`
is one-shot, and a cleared or replaced timeout never runs, so the stale
non-null handle the source leaves behind after a fire has no observable
effect), and the log of `sendEmergencyAlert` invocations with the coordinate
each one was given. -/
structure AppState where
  location : Option Coordinates
  destCoordinates : Option Coordinates
  destAddress : String
  lastNotificationTime : ℕ
  responseTimer : Option TimerInfo
  dispatchCalls : List Coordinates
deriving DecidableEq, Repr

/-- `showDeviationNotification` (Main.tsx lines 535-576): clears any
outstanding response timer (`clearTimeout`), schedules the interactive
prompt (an external effect), and installs a fresh 30 s timer whose callback
closes over `currentLocation`, the coordinate passed in at event creation.
Scheduling is assumed to succeed (the catch path is an external failure). -/
def showDeviationNotification (st : AppState) (currentLocation : Coordinates)
    (now : ℕ) : AppState :=
  { st with responseTimer := some ⟨now + RESPONSE_TIMEOUT, currentLocation⟩ }

/-- `checkRouteDeviation` (Main.tsx lines 749-766). The turf `distance`
call is an external library returning kilometres; it is abstracted as the
function argument `distFn`, and the source multiplies its result by 1000. -/
def checkRouteDeviation (distFn : Coordinates → Coordinates → ℚ)
    (st : AppState) (currentLocation : Coordinates) (now : ℕ) : AppState :=
  match st.destCoordinates with
  | none => st
  | some destC =>
    if now - st.lastNotificationTime < NOTIFICATION_COOLDOWN then st
    else
      let deviationDistance := distFn currentLocation destC * 1000
      if ROUTE_DEVIATION_THRESHOLD < deviationDistance then
        showDeviationNotification
          { st with lastNotificationTime := now } currentLocation now
      else st

/-- The response-window timeout callback (Main.tsx lines 558-571): when the
outstanding timer fires, the callback finds `responseTimer.current` non-null
(nothing cleared it, or the callback would not run) and calls
`sendEmergencyAlert` with the coordinate captured at event creation. Firing
consumes the one-shot timeout. -/
def responseTimeoutFire (st : AppState) : AppState :=
  match st.responseTimer with
  | none => st
  | some ti =>
    { st with dispatchCalls := st.dispatchCalls ++ [ti.coord],
              responseTimer := none }

/-- Action identifiers of the interactive deviation prompt. -/
inductive ActionId where
  | SEND_ALERT
  | IM_SAFE
  | otherAction
deriving DecidableEq, Repr

/-- The notification response listener (Main.tsx lines 93-136): on any
response it first clears and nulls the response timer, then branches on the
action. `SEND_ALERT` dispatches with the captured location (the closure over
the `location` state); `IM_SAFE` applies its own cooldown check and, when it
passes, writes `lastNotificationTime`; no branch dispatches on `IM_SAFE`. -/
def handleNotificationResponse (st : AppState) (actionId : ActionId)
    (now : ℕ) : AppState :=
  let currentLocation := st.location
  let st1 := { st with responseTimer := none }
  match actionId with
  | .SEND_ALERT =>
    match currentLocation with
    | some loc => { st1 with dispatchCalls := st1.dispatchCalls ++ [loc] }
    | none => st1
  | .IM_SAFE =>
    if now - st1.lastNotificationTime < NOTIFICATION_COOLDOWN then st1
    else { st1 with lastNotificationTime := now }
  | .otherAction => st1

/-- The position-watch callback (Main.tsx lines 353-373): store the new
location, append it to the display trail (display-only, omitted), and when a
destination is set run `checkRouteDeviation` on the new coordinate. -/
def positionUpdate (distFn : Coordinates → Coordinates → ℚ)
    (st : AppState) (c : Coordinates) (now : ℕ) : AppState :=
  let st1 := { st with location := some c }
  if st1.destCoordinates.isSome then checkRouteDeviation distFn st1 c now
  else st1

/-- A sequence of position-watch callbacks, in arrival order. -/
def positionUpdates (distFn : Coordinates → Coordinates → ℚ)
    (st : AppState) (samples : List (Coordinates × ℕ)) : AppState :=
  samples.foldl (fun s p => positionUpdate distFn s p.1 p.2) st

/-! ## AlertDispatcher: `sendEmergencyAlert` in `src/Main.tsx` lines 579-651 -/

/-- The SMS channel environment: whether `SMS.isAvailableAsync` reports the
channel usable, and the result of `SMS.sendSMSAsync` (`none` models the send
rejecting/throwing, `some r` the resolved result string). -/
structure SmsEnv where
  available : Bool
  sendResult : Option String
deriving DecidableEq, Repr

/-- Outcome labels for the branches of `sendEmergencyAlert`, matching the
result taxonomy of the specification: `noContacts` for the empty-contact
short circuit, `noLocation` for the missing-location short circuit,
`sentOk` for a resolved send with result `sent`, `prepared` for a resolved
send with any other result, `failed` for the catch branch (channel
unavailable or send rejected). -/
inductive AlertOutcome where
  | noContacts
  | noLocation
  | sentOk
  | prepared
  | failed
deriving DecidableEq, Repr

/-- The message template of Main.tsx lines 608-612: the fixed text with the
display name of the traveler, the destination name, the OpenStreetMap link
from the subject coordinate, and the optional trailing recording segment. -/
def mkAlertMessage (username destinationName : String) (loc : Coordinates)
    (audioUrl : Option String) : String :=
  let base := "EMERGENCY: Route deviation detected for " ++ username
    ++ " near " ++ destinationName
    ++ ". Current location: https://www.openstreetmap.org/?mlat="
    ++ toString loc.latitude ++ "&mlon=" ++ toString loc.longitude
  match audioUrl with
  | some url => base ++ "\nEmergency recording: " ++ url
  | none => base

/-- The JavaScript `String.prototype.startsWith` test, modelled directly
on the character sequence: the candidate prefix is a list prefix of the
string. -/
def strStartsWith (s p : String) : Bool := p.data.isPrefixOf s.data

/-- The phone-number mapping of Main.tsx lines 618-624: a number not
starting with a plus sign gets the fixed prefix +91 prepended, one already
starting with a plus sign passes through unchanged; `contacts.map` leaves
the contact list itself untouched and keeps its order. -/
def phoneNumbersOf (contacts : List EmergencyContact) : List String :=
  contacts.map (fun contact =>
    let number := contact.phone_number
    if !(strStartsWith number "+") then "+91" ++ number else number)

/-- `sendEmergencyAlert` (Main.tsx lines 579-651). Returns the branch
outcome together with the invocation of the delivery channel, if any:
`some (numbers, message)` exactly when `SMS.sendSMSAsync` is called with
those recipients and that message. The `destination.address` fallback uses
the JavaScript falsiness of the empty string. -/
def sendEmergencyAlert (contacts : List EmergencyContact)
    (username destAddress : String) (currentLocation : Option Coordinates)
    (audioUrl : Option String) (env : SmsEnv) :
    AlertOutcome × Option (List String × String) :=
  if contacts.length = 0 then (.noContacts, none)
  else match currentLocation with
  | none => (.noLocation, none)
  | some loc =>
    let destinationName := if destAddress = "" then "unknown location"
      else destAddress
    let message := mkAlertMessage username destinationName loc audioUrl
    if env.available then
      let phoneNumbers := phoneNumbersOf contacts
      match env.sendResult with
      | some r =>
        ((if r = "sent" then .sentOk else .prepared),
         some (phoneNumbers, message))
      | none => (.failed, some (phoneNumbers, message))
    else (.failed, none)

/-- The variant message construction of `src/unnamed/part_000` lines
327-328 (`sendEmergencyAlert` of the unnamed main-screen variant), with its
own fallback text for an empty destination address. -/
def mkAlertMessageVariant (username destAddress : String) (loc : Coordinates)
    (audioUrl : Option String) : String :=
  let destinationName := if destAddress = "" then "unknown spot"
    else destAddress
  "EMERGENCY: " ++ username ++ " might be in trouble near " ++ destinationName
    ++ ". Current Location: https://www.openstreetmap.org/?mlat="
    ++ toString loc.latitude ++ "&mlon=" ++ toString loc.longitude
    ++ (match audioUrl with
        | some url => " - Voice clip: " ++ url
        | none => "")

/-! ## VoiceTriggerPipeline: `src/src/services/VoiceService.ts` -/

/-! Constants from VoiceService.ts lines 29-30. -/

def RECORDING_DURATION : ℕ := 15000

def DEBOUNCE_DELAY : ℕ := 16000

/-- `sendAudioToContacts` (VoiceService.ts lines 228-248): returns the
invocation of the delivery channel, if any: `some (numbers, message)`
exactly when `SMS.sendSMSAsync` is called. An empty contact list or an
unavailable channel produces no invocation. -/
def sendAudioToContacts (contacts : List EmergencyContact) (audioUrl : String)
    (location : Option Coordinates) (env : SmsEnv) :
    Option (List String × String) :=
  if contacts.length = 0 then none
  else
    let message := "EMERGENCY: Voice alert triggered. Audio: " ++ audioUrl
      ++ (match location with
          | some l => " - Location: https://www.openstreetmap.org/?mlat="
              ++ toString l.latitude ++ "&mlon=" ++ toString l.longitude
          | none => "")
    if env.available then some (contacts.map (·.phone_number), message)
    else none

/-- The mutable state of a `VoiceService` instance: whether `this.recording`
is non-null, the `isRecording` flag, the `lastRecordingTime` debounce
tracker (initially 0), the pending `setTimeout` that will run
`stopRecordingAndSend` (fire time and the captured location argument), and
the log of delivery-channel invocations. -/
structure VSState where
  recording : Bool
  isRecording : Bool
  lastRecordingTime : ℕ
  stopTimer : Option (ℕ × Option Coordinates)
  sends : List (List String × String)
deriving DecidableEq, Repr

/-- `startFullRecording` (VoiceService.ts lines 107-139): the debounce gate
(`isRecording` set, or less than `DEBOUNCE_DELAY` since the last recording
start) ignores the trigger entirely; then the permission check; then the
prepare/start sequence, which on success marks the recording started at
`now` and schedules the stop-and-send timeout `RECORDING_DURATION` later,
and on failure (`startOk = false`, the catch branch) performs the cleanup
reset. -/
def startFullRecording (st : VSState) (hasPermission startOk : Bool)
    (location : Option Coordinates) (now : ℕ) : VSState :=
  if st.isRecording || decide (now - st.lastRecordingTime < DEBOUNCE_DELAY)
  then st
  else if !hasPermission then st
  else if startOk then
    { st with recording := true, isRecording := true,
              lastRecordingTime := now,
              stopTimer := some (now + RECORDING_DURATION, location) }
  else { st with recording := false, isRecording := false }

/-- `stopRecordingAndSend` (VoiceService.ts lines 141-170): a no-op when no
active recording; otherwise stop and unload, read the URI (`uriOk`), upload
(`uploadUrl`, `none` modelling upload failure), send the audio alert only
when a public URL came back, and in every case finish with
`stopAndCleanupRecording` (lines 88-105), which resets `recording` and
`isRecording`. -/
def stopRecordingAndSend (st : VSState) (location : Option Coordinates)
    (uriOk : Bool) (uploadUrl : Option String)
    (contacts : List EmergencyContact) (env : SmsEnv) : VSState :=
  if !st.recording || !st.isRecording then st
  else
    let st1 :=
      if uriOk then
        match uploadUrl with
        | some url =>
          match sendAudioToContacts contacts url location env with
          | some inv => { st with sends := st.sends ++ [inv] }
          | none => st
        | none => st
      else st
    { st1 with recording := false, isRecording := false }

/-- The recording timeout firing (the `setTimeout` of VoiceService.ts lines
131-134): consumes the one-shot timeout and runs `stopRecordingAndSend`
with the captured location argument. -/
def recordingTimerFire (st : VSState) (uriOk : Bool)
    (uploadUrl : Option String) (contacts : List EmergencyContact)
    (env : SmsEnv) : VSState :=
  match st.stopTimer with
  | none => st
  | some (_, location) =>
    stopRecordingAndSend { st with stopTimer := none } location uriOk
      uploadUrl contacts env

/-- Substring containment: the claims about message contents are stated as
infix containment of character lists. -/
def ContainsStr (m s : String) : Prop := s.data <:+: m.data

instance (m s : String) : Decidable (ContainsStr m s) :=
  List.decidableInfix s.data m.data

/-! ## Concrete values used by witnesses and counterexamples -/

/-- Distance function reporting two kilometres for every pair, standing in
for the external turf distance on a pair of points 2 km apart. -/
def distTwoKm : Coordinates → Coordinates → ℚ := fun _ _ => 2

def coordW : Coordinates := ⟨19, 72, none⟩

def coordW2 : Coordinates := ⟨21, 74, none⟩

def destW : Coordinates := ⟨20, 73, none⟩

def stW : AppState :=
  { location := some coordW, destCoordinates := some destW,
    destAddress := "Mumbai", lastNotificationTime := 0,
    responseTimer := none, dispatchCalls := [] }

/-- A state in `PendingResponse`: the response-window timer set at time 0 is
still outstanding. -/
def stPending : AppState :=
  { location := some coordW, destCoordinates := some destW,
    destAddress := "Mumbai", lastNotificationTime := 0,
    responseTimer := some ⟨30000, coordW⟩, dispatchCalls := [] }

/-- A second pending-state value, used by the C5 counterexample. -/
def stPending2 : AppState :=
  { location := some coordW, destCoordinates := none,
    destAddress := "", lastNotificationTime := 0,
    responseTimer := some ⟨30000, coordW⟩, dispatchCalls := [] }

/-- A voice-pipeline state that has never recorded. -/
def vsIdle : VSState :=
  { recording := false, isRecording := false, lastRecordingTime := 0,
    stopTimer := none, sends := [] }

/-- A voice-pipeline state with a recording in progress, started at
20000. -/
def vsRecording : VSState :=
  { recording := true, isRecording := true, lastRecordingTime := 20000,
    stopTimer := none, sends := [] }

/-- A contact whose number already carries an international prefix. -/
def contactW : EmergencyContact := ⟨"1", "Asha", "+15551234567"⟩

/-- A contact whose number has no international prefix. -/
def contactW2 : EmergencyContact := ⟨"2", "Ravi", "9876543210"⟩

/-! ## Helper lemmas shared by several theorems -/

theorem string_data_append (a b : String) :
    (a ++ b).data = a.data ++ b.data := rfl

theorem containsStr_refl (s : String) : ContainsStr s s :=
  ⟨[], [], by simp⟩

theorem containsStr_appendL (a b s : String) (h : ContainsStr a s) :
    ContainsStr (a ++ b) s := by
  obtain ⟨p, q, hpq⟩ := h
  exact ⟨p, q ++ b.data, by rw [string_data_append, ← hpq]; simp⟩

theorem containsStr_appendR (a b s : String) (h : ContainsStr b s) :
    ContainsStr (a ++ b) s := by
  obtain ⟨p, q, hpq⟩ := h
  exact ⟨a.data ++ p, q, by rw [string_data_append, ← hpq]; simp⟩

/-- Firing the timeout while a timer is outstanding appends exactly one
dispatch with the captured coordinate and consumes the timer. -/
theorem responseTimeoutFire_pending (st : AppState) (ti : TimerInfo)
    (h : st.responseTimer = some ti) :
    responseTimeoutFire st =
      { st with dispatchCalls := st.dispatchCalls ++ [ti.coord],
                responseTimer := none } := by
  simp [responseTimeoutFire, h]

/-- Firing with no outstanding timer changes nothing. -/
theorem responseTimeoutFire_idle (st : AppState)
    (h : st.responseTimer = none) : responseTimeoutFire st = st := by
  simp [responseTimeoutFire, h]

/-- A position update arriving within the notification cooldown only moves
the stored location: the deviation check is suppressed. -/
theorem positionUpdate_suppressed (distFn : Coordinates → Coordinates → ℚ)
    (st : AppState) (c : Coordinates) (now : ℕ)
    (h : now - st.lastNotificationTime < NOTIFICATION_COOLDOWN) :
    positionUpdate distFn st c now = { st with location := some c } := by
  unfold positionUpdate
  cases hd : st.destCoordinates <;>
    simp [checkRouteDeviation, hd, h]

/-- A whole sequence of position updates whose times all fall inside the
cooldown window leaves every escalation field unchanged. -/
theorem positionUpdates_within_cooldown
    (distFn : Coordinates → Coordinates → ℚ)
    (samples : List (Coordinates × ℕ)) :
    ∀ st : AppState,
    (∀ p ∈ samples, p.2 - st.lastNotificationTime < NOTIFICATION_COOLDOWN) →
    (positionUpdates distFn st samples).lastNotificationTime =
        st.lastNotificationTime ∧
    (positionUpdates distFn st samples).responseTimer = st.responseTimer ∧
    (positionUpdates distFn st samples).dispatchCalls = st.dispatchCalls := by
  induction samples with
  | nil => exact fun st _ => ⟨rfl, rfl, rfl⟩
  | cons p ps ih =>
    intro st h
    have h1 : p.2 - st.lastNotificationTime < NOTIFICATION_COOLDOWN :=
      h p (by simp)
    have hstep := positionUpdate_suppressed distFn st p.1 p.2 h1
    have hrest := ih { st with location := some p.1 }
      (fun q hq => h q (by simp [hq]))
    simpa [positionUpdates, hstep] using hrest

/-- A qualifying deviation (destination set, cooldown elapsed, measured
distance over the threshold) stamps the cooldown and installs the 30 s
response-window timer capturing the event coordinate. -/
theorem checkRouteDeviation_qualifying
    (distFn : Coordinates → Coordinates → ℚ) (st : AppState)
    (cur : Coordinates) (now : ℕ) (destC : Coordinates)
    (hdest : st.destCoordinates = some destC)
    (hcool : ¬ now - st.lastNotificationTime < NOTIFICATION_COOLDOWN)
    (hdist : ROUTE_DEVIATION_THRESHOLD < distFn cur destC * 1000) :
    checkRouteDeviation distFn st cur now =
      { st with lastNotificationTime := now,
                responseTimer := some ⟨now + RESPONSE_TIMEOUT, cur⟩ } := by
  simp [checkRouteDeviation, showDeviationNotification, hdest, hcool, hdist]

/-! ## Claim C4 -/

/-- Claim C4: `checkRouteDeviation` raises a deviation event (stamps
`lastNotificationTime := now` and opens the 30 s response window for the
current coordinate) precisely when a destination is set, at least the 60 s
cooldown has elapsed since `lastNotificationTime`, and the measured
distance to the destination exceeds the 1000 m threshold; in every other
case (destination absent, cooldown not elapsed regardless of distance, or
distance at most the threshold) the state is returned unchanged and in
particular `lastNotificationTime` is not touched. -/
theorem checkRouteDeviation_cases (distFn : Coordinates → Coordinates → ℚ)
    (st : AppState) (cur : Coordinates) (now : ℕ) :
    (st.destCoordinates = none → checkRouteDeviation distFn st cur now = st) ∧
    (∀ destC, st.destCoordinates = some destC →
      (now - st.lastNotificationTime < NOTIFICATION_COOLDOWN →
        checkRouteDeviation distFn st cur now = st) ∧
      (¬ now - st.lastNotificationTime < NOTIFICATION_COOLDOWN →
        (ROUTE_DEVIATION_THRESHOLD < distFn cur destC * 1000 →
          checkRouteDeviation distFn st cur now =
            { st with lastNotificationTime := now,
                      responseTimer := some ⟨now + RESPONSE_TIMEOUT, cur⟩ }) ∧
        (¬ ROUTE_DEVIATION_THRESHOLD < distFn cur destC * 1000 →
          checkRouteDeviation distFn st cur now = st))) := by
  refine ⟨fun h => by simp [checkRouteDeviation, h], fun destC h => ?_⟩
  refine ⟨fun hc => by simp [checkRouteDeviation, h, hc], fun hc => ?_⟩
  exact ⟨fun hd => checkRouteDeviation_qualifying distFn st cur now destC h hc hd,
         fun hd => by simp [checkRouteDeviation, h, hc, hd]⟩

/-- Witness for claim C4 at a concrete input: destination set, cooldown
exactly elapsed at 60 s, measured distance 2000 m over the 1000 m
threshold, so the event fires and stamps the cooldown. -/
theorem checkRouteDeviation_cases_witness :
    checkRouteDeviation distTwoKm stW coordW2 60000 =
      { stW with lastNotificationTime := 60000,
                 responseTimer := some ⟨90000, coordW2⟩ } := by
  have h := checkRouteDeviation_cases distTwoKm stW coordW2 60000
  exact ((h.2 destW rfl).2 (by decide)).1
    (by norm_num [distTwoKm, ROUTE_DEVIATION_THRESHOLD])

/-! ## Claim C1 -/

/-- Claim C1 counterexample: with a session already in `PendingResponse`
(timer outstanding, set to fire at 30000 with the old coordinate) and the
cooldown elapsed, a new qualifying DeviationEvent at time 60000 is NOT
ignored: afterwards the outstanding timer is the fresh one for the new
event, so the existing timer was cancelled and replaced, refuting the
claimed single-flight ignore guard. -/
theorem deviation_while_pending_not_ignored :
    stPending.responseTimer = some ⟨30000, coordW⟩ ∧
    (checkRouteDeviation distTwoKm stPending coordW2 60000).responseTimer =
      some ⟨90000, coordW2⟩ := by
  constructor
  · rfl
  · rw [checkRouteDeviation_qualifying distTwoKm stPending coordW2 60000 destW
      rfl (by decide) (by norm_num [distTwoKm, ROUTE_DEVIATION_THRESHOLD])]
    rfl

/-- Claim C1 amended: there is no ignore-style single-flight guard in
`showDeviationNotification`; instead, a qualifying DeviationEvent processed
while a session is already `PendingResponse` cancels the outstanding
response-window timer and replaces the session, leaving exactly one timer
outstanding, namely the fresh 30 s timer capturing the new event
coordinate. At most one timer is outstanding at any time (the single slot),
but this is achieved by replacement, not by ignoring the event. -/
theorem deviation_while_pending_replaces
    (distFn : Coordinates → Coordinates → ℚ) (st : AppState)
    (cur : Coordinates) (now : ℕ) (destC : Coordinates) (ti : TimerInfo)
    (_hpend : st.responseTimer = some ti)
    (hdest : st.destCoordinates = some destC)
    (hcool : ¬ now - st.lastNotificationTime < NOTIFICATION_COOLDOWN)
    (hdist : ROUTE_DEVIATION_THRESHOLD < distFn cur destC * 1000) :
    (checkRouteDeviation distFn st cur now).responseTimer =
      some ⟨now + RESPONSE_TIMEOUT, cur⟩ := by
  rw [checkRouteDeviation_qualifying distFn st cur now destC hdest hcool hdist]

/-- Witness for the amended claim C1 at the concrete pending state. -/
theorem deviation_while_pending_replaces_witness :
    (checkRouteDeviation distTwoKm stPending coordW2 90000).responseTimer =
      some ⟨120000, coordW2⟩ :=
  deviation_while_pending_replaces distTwoKm stPending coordW2 90000 destW
    ⟨30000, coordW⟩ rfl rfl (by decide)
    (by norm_num [distTwoKm, ROUTE_DEVIATION_THRESHOLD])

/-! ## Claim C5 -/

/-- Claim C5 counterexample: the `IM_SAFE` branch of the notification
response listener writes the cooldown timestamp: starting from
`lastNotificationTime = 0`, processing the user response "confirm safe" at
time 70000 leaves `lastNotificationTime = 70000`, so the timestamp is
mutated by a user-response handler and not only by the deviation check. -/
theorem imsafe_writes_cooldown_timestamp :
    stPending2.lastNotificationTime = 0 ∧
    AppState.lastNotificationTime
      (handleNotificationResponse stPending2 .IM_SAFE 70000) = 70000 := by
  constructor
  · rfl
  · decide

/-- Claim C5 amended: the cooldown timestamp is written in exactly two
places: the deviation check on a qualifying deviation, and the `IM_SAFE`
branch of the response listener when at least the cooldown window has
elapsed since the previous write. The `SEND_ALERT` branch, unrecognized
response actions, and the response-window timeout callback never write
it, and the deviation check either leaves it unchanged or stamps the
current time. -/
theorem lastNotificationTime_writers
    (distFn : Coordinates → Coordinates → ℚ) (st : AppState)
    (cur : Coordinates) (now : ℕ) :
    (responseTimeoutFire st).lastNotificationTime =
      st.lastNotificationTime ∧
    (handleNotificationResponse st .SEND_ALERT now).lastNotificationTime =
      st.lastNotificationTime ∧
    (handleNotificationResponse st .otherAction now).lastNotificationTime =
      st.lastNotificationTime ∧
    (handleNotificationResponse st .IM_SAFE now).lastNotificationTime =
      (if now - st.lastNotificationTime < NOTIFICATION_COOLDOWN
       then st.lastNotificationTime else now) ∧
    ((checkRouteDeviation distFn st cur now).lastNotificationTime =
        st.lastNotificationTime ∨
     (checkRouteDeviation distFn st cur now).lastNotificationTime = now) := by
  refine ⟨?_, ?_, ?_, ?_, ?_⟩
  · cases h : st.responseTimer <;> simp [responseTimeoutFire, h]
  · cases h : st.location <;> simp [handleNotificationResponse, h]
  · simp [handleNotificationResponse]
  · by_cases h : now - st.lastNotificationTime < NOTIFICATION_COOLDOWN <;>
      simp [handleNotificationResponse, h]
  · cases hd : st.destCoordinates with
    | none => left; simp [checkRouteDeviation, hd]
    | some destC =>
      by_cases hc : now - st.lastNotificationTime < NOTIFICATION_COOLDOWN
      · left; simp [checkRouteDeviation, hd, hc]
      · by_cases hdist :
          ROUTE_DEVIATION_THRESHOLD < distFn cur destC * 1000
        · right
          rw [checkRouteDeviation_qualifying distFn st cur now destC hd hc
            hdist]
        · left; simp [checkRouteDeviation, hd, hc, hdist]

/-! ## Claim C2 -/

/-- Claim C2: a session entering `PendingResponse` on a qualifying
deviation at coordinate `cur` and receiving no user action dispatches
exactly once when the 30 s timer expires, and the dispatched coordinate is
`cur`, the coordinate captured at event-creation time — even when
arbitrarily many position samples arrive in between (any sample within the
60 s cooldown of the event, which covers the whole 30 s response window,
leaves the pending session untouched). After the expiry the timer is gone
and firing again changes nothing, so the dispatch happens exactly once. -/
theorem timeout_dispatch_uses_event_coordinate
    (distFn : Coordinates → Coordinates → ℚ) (st : AppState)
    (cur : Coordinates) (now : ℕ) (destC : Coordinates)
    (samples : List (Coordinates × ℕ))
    (hdest : st.destCoordinates = some destC)
    (hcool : ¬ now - st.lastNotificationTime < NOTIFICATION_COOLDOWN)
    (hdist : ROUTE_DEVIATION_THRESHOLD < distFn cur destC * 1000)
    (hsamples : ∀ p ∈ samples, p.2 - now < NOTIFICATION_COOLDOWN) :
    (responseTimeoutFire (positionUpdates distFn
        (checkRouteDeviation distFn st cur now) samples)).dispatchCalls =
      st.dispatchCalls ++ [cur] ∧
    (responseTimeoutFire (positionUpdates distFn
        (checkRouteDeviation distFn st cur now) samples)).responseTimer =
      none ∧
    responseTimeoutFire (responseTimeoutFire (positionUpdates distFn
        (checkRouteDeviation distFn st cur now) samples)) =
      responseTimeoutFire (positionUpdates distFn
        (checkRouteDeviation distFn st cur now) samples) := by
  rw [checkRouteDeviation_qualifying distFn st cur now destC hdest hcool
    hdist]
  obtain ⟨hlt, hrt, hdc⟩ := positionUpdates_within_cooldown distFn samples
    { st with lastNotificationTime := now,
              responseTimer := some ⟨now + RESPONSE_TIMEOUT, cur⟩ }
    (fun p hp => by simpa using hsamples p hp)
  have hrt2 : (positionUpdates distFn
      { st with lastNotificationTime := now,
                responseTimer := some ⟨now + RESPONSE_TIMEOUT, cur⟩ }
      samples).responseTimer = some ⟨now + RESPONSE_TIMEOUT, cur⟩ := by
    simpa using hrt
  have hdc2 : (positionUpdates distFn
      { st with lastNotificationTime := now,
                responseTimer := some ⟨now + RESPONSE_TIMEOUT, cur⟩ }
      samples).dispatchCalls = st.dispatchCalls := by
    simpa using hdc
  rw [responseTimeoutFire_pending _ _ hrt2]
  exact ⟨by simp [hdc2], rfl, responseTimeoutFire_idle _ rfl⟩

/-- Witness for claim C2: concrete event at 60000 for `coordW2`, an
intervening position sample at 80000, timer expiry dispatching exactly the
event coordinate. -/
theorem timeout_dispatch_uses_event_coordinate_witness :
    (responseTimeoutFire (positionUpdates distTwoKm
        (checkRouteDeviation distTwoKm stW coordW2 60000)
        [(coordW, 80000)])).dispatchCalls = [coordW2] := by
  have h := timeout_dispatch_uses_event_coordinate distTwoKm stW coordW2
    60000 destW [(coordW, 80000)] rfl (by decide)
    (by norm_num [distTwoKm, ROUTE_DEVIATION_THRESHOLD]) (by decide)
  simpa [stW] using h.1

/-! ## Claim C3 -/

/-- Claim C3: while a session is in `PendingResponse` (its timer still
outstanding), the user action "confirm safe" (`IM_SAFE`) first cancels the
response-window timer and then, in either branch of its own cooldown
check, never calls `sendEmergencyAlert`: the dispatch log is unchanged and
the (now cancelled) timeout can no longer fire, so dispatch is never
invoked for that session. -/
theorem confirm_safe_cancels_and_never_dispatches (st : AppState)
    (ti : TimerInfo) (now : ℕ) (_hpend : st.responseTimer = some ti) :
    (handleNotificationResponse st .IM_SAFE now).responseTimer = none ∧
    (handleNotificationResponse st .IM_SAFE now).dispatchCalls =
      st.dispatchCalls ∧
    responseTimeoutFire (handleNotificationResponse st .IM_SAFE now) =
      handleNotificationResponse st .IM_SAFE now := by
  by_cases h : now - st.lastNotificationTime < NOTIFICATION_COOLDOWN <;>
    exact ⟨by simp [handleNotificationResponse, h],
           by simp [handleNotificationResponse, h],
           by simp [handleNotificationResponse, responseTimeoutFire, h]⟩

/-- Witness for claim C3: the concrete pending session confirmed safe at
10000, well before its 30000 deadline. -/
theorem confirm_safe_cancels_witness :
    (handleNotificationResponse stPending .IM_SAFE 10000).responseTimer =
      none ∧
    (handleNotificationResponse stPending .IM_SAFE 10000).dispatchCalls =
      [] := by
  have h := confirm_safe_cancels_and_never_dispatches stPending
    ⟨30000, coordW⟩ 10000 rfl
  exact ⟨h.1, h.2.1⟩

/-! ## Claim C6 -/

/-- Claim C6: dispatching with an empty contact list short-circuits: the
Main.tsx dispatcher reports the no-contacts outcome and returns without
invoking the delivery channel (no recipients/message pair is produced), and
the VoiceService sender likewise produces no channel invocation — for every
message content, location, and channel environment. -/
theorem dispatch_empty_contacts (username destAddress : String)
    (currentLocation : Option Coordinates) (audioUrl : Option String)
    (voiceAudioUrl : String) (env : SmsEnv) :
    sendEmergencyAlert [] username destAddress currentLocation audioUrl
        env = (.noContacts, none) ∧
    sendAudioToContacts [] voiceAudioUrl currentLocation env = none :=
  ⟨rfl, rfl⟩

/-! ## Claim C7 -/

/-- Preservation of the debounce tracker by the stop-and-send step: no
branch of `stopRecordingAndSend` writes `lastRecordingTime`. -/
theorem stopRecordingAndSend_keeps_lastTime (st : VSState)
    (location : Option Coordinates) (uriOk : Bool)
    (uploadUrl : Option String) (contacts : List EmergencyContact)
    (env : SmsEnv) :
    (stopRecordingAndSend st location uriOk uploadUrl contacts
        env).lastRecordingTime = st.lastRecordingTime := by
  unfold stopRecordingAndSend
  by_cases hg : (!st.recording || !st.isRecording) = true
  · simp [hg]
  · cases uriOk with
    | false => simp [hg]
    | true =>
      cases uploadUrl with
      | none => simp [hg]
      | some url =>
        cases h : sendAudioToContacts contacts url location env <;>
          simp [hg, h]

/-- Claim C7: two trigger-phrase detections less than 16000 ms apart start
exactly one recording cycle. The first (accepted: not recording, debounce
elapsed, permission granted, recorder start succeeding) begins a
fixed-duration 15 s recording and stamps the debounce tracker; the second,
arriving within 16000 ms of the first recording start, is ignored with the
state completely unchanged (not queued) — both when it arrives during the
recording and when it arrives after the 15 s stop-and-send timeout has
already run. -/
theorem trigger_debounce_single_recording (st : VSState)
    (p2 s2 : Bool) (loc1 loc2 : Option Coordinates) (t1 t2 : ℕ)
    (uriOk : Bool) (uploadUrl : Option String)
    (contacts : List EmergencyContact) (env : SmsEnv)
    (hidle : st.isRecording = false)
    (hdeb : ¬ t1 - st.lastRecordingTime < DEBOUNCE_DELAY)
    (h2 : t2 - t1 < DEBOUNCE_DELAY) :
    (startFullRecording st true true loc1 t1).isRecording = true ∧
    (startFullRecording st true true loc1 t1).lastRecordingTime = t1 ∧
    (startFullRecording st true true loc1 t1).stopTimer =
      some (t1 + RECORDING_DURATION, loc1) ∧
    startFullRecording (startFullRecording st true true loc1 t1) p2 s2
        loc2 t2 =
      startFullRecording st true true loc1 t1 ∧
    startFullRecording (recordingTimerFire
        (startFullRecording st true true loc1 t1) uriOk uploadUrl contacts
        env) p2 s2 loc2 t2 =
      recordingTimerFire (startFullRecording st true true loc1 t1) uriOk
        uploadUrl contacts env := by
  have h1 : startFullRecording st true true loc1 t1 =
      { st with recording := true, isRecording := true,
                lastRecordingTime := t1,
                stopTimer := some (t1 + RECORDING_DURATION, loc1) } := by
    simp [startFullRecording, hidle, hdeb]
  refine ⟨by rw [h1], by rw [h1], by rw [h1], ?_, ?_⟩
  · rw [h1]
    simp [startFullRecording]
  · rw [h1]
    have hfire : recordingTimerFire
        { st with recording := true, isRecording := true,
                  lastRecordingTime := t1,
                  stopTimer := some (t1 + RECORDING_DURATION, loc1) }
        uriOk uploadUrl contacts env =
      stopRecordingAndSend
        { st with recording := true, isRecording := true,
                  lastRecordingTime := t1, stopTimer := none }
        loc1 uriOk uploadUrl contacts env := by
      simp [recordingTimerFire]
    rw [hfire]
    have hlt := stopRecordingAndSend_keeps_lastTime
      { st with recording := true, isRecording := true,
                lastRecordingTime := t1, stopTimer := none }
      loc1 uriOk uploadUrl contacts env
    unfold startFullRecording
    have hcond : t2 - (stopRecordingAndSend
        { st with recording := true, isRecording := true,
                  lastRecordingTime := t1, stopTimer := none }
        loc1 uriOk uploadUrl contacts env).lastRecordingTime <
        DEBOUNCE_DELAY := by
      rw [hlt]
      exact h2
    simp [hcond]

/-- Witness for claim C7: first detection accepted at 20000, second at
30000 (10 s later) ignored both directly and after the stop timeout. -/
theorem trigger_debounce_single_recording_witness :
    (startFullRecording vsIdle true true (some coordW) 20000).isRecording =
      true ∧
    startFullRecording (startFullRecording vsIdle true true (some coordW)
        20000) true true none 30000 =
      startFullRecording vsIdle true true (some coordW) 20000 := by
  have h := trigger_debounce_single_recording vsIdle true true (some coordW)
    none 20000 30000 true none [] ⟨true, some "sent"⟩ rfl (by decide)
    (by decide)
  exact ⟨h.1, h.2.2.2.1⟩

/-! ## Claim C8 -/

/-- Claim C8: when the upload fails during the stop-and-send step
(`uploadToSupabase` returns no public URL), the delivery channel is never
invoked — the send log is unchanged, so no fallback text-only alert is
sent — the recorder is cleaned up and the pipeline returns to its idle
shape, and a new trigger arriving once the 16 s debounce window has
elapsed since the failed recording started is accepted and starts a new
recording. -/
theorem upload_failure_no_dispatch (st : VSState)
    (location loc2 : Option Coordinates)
    (contacts : List EmergencyContact) (env : SmsEnv) (t2 : ℕ)
    (hrec : st.recording = true) (hisrec : st.isRecording = true)
    (hdeb : ¬ t2 - st.lastRecordingTime < DEBOUNCE_DELAY) :
    (stopRecordingAndSend st location true none contacts env).sends =
      st.sends ∧
    (stopRecordingAndSend st location true none contacts env).recording =
      false ∧
    (stopRecordingAndSend st location true none contacts
        env).isRecording = false ∧
    (startFullRecording (stopRecordingAndSend st location true none
        contacts env) true true loc2 t2).isRecording = true ∧
    (startFullRecording (stopRecordingAndSend st location true none
        contacts env) true true loc2 t2).lastRecordingTime = t2 := by
  have hstop : stopRecordingAndSend st location true none contacts env =
      { st with recording := false, isRecording := false } := by
    simp [stopRecordingAndSend, hrec, hisrec]
  refine ⟨by rw [hstop], by rw [hstop], by rw [hstop], ?_, ?_⟩ <;>
    · rw [hstop]
      simp [startFullRecording, hdeb]

/-- Witness for claim C8: concrete recording state started at 20000,
upload failure, then an accepted trigger at 40000. -/
theorem upload_failure_no_dispatch_witness :
    (stopRecordingAndSend vsRecording (some coordW) true none []
        ⟨true, some "sent"⟩).sends = [] ∧
    (startFullRecording (stopRecordingAndSend vsRecording (some coordW)
        true none [] ⟨true, some "sent"⟩) true true none
        40000).isRecording = true := by
  have h := upload_failure_no_dispatch vsRecording (some coordW) none []
    ⟨true, some "sent"⟩ 40000 rfl rfl (by decide)
  exact ⟨h.1, h.2.2.2.1⟩

/-! ## Claim C9 -/

/-- Unfolding equation for the canonical message without evidence URL. -/
theorem mkAlertMessage_none (u dn : String) (loc : Coordinates) :
    mkAlertMessage u dn loc none =
      "EMERGENCY: Route deviation detected for " ++ u ++ " near " ++ dn
        ++ ". Current location: https://www.openstreetmap.org/?mlat="
        ++ toString loc.latitude ++ "&mlon=" ++ toString loc.longitude :=
  rfl

/-- Unfolding equation for the canonical message with evidence URL. -/
theorem mkAlertMessage_some (u dn : String) (loc : Coordinates)
    (url : String) :
    mkAlertMessage u dn loc (some url) =
      mkAlertMessage u dn loc none ++ "\nEmergency recording: " ++ url :=
  rfl

/-- Unfolding equation for the variant message without evidence URL. -/
theorem mkAlertMessageVariant_none (u destAddress : String)
    (loc : Coordinates) :
    mkAlertMessageVariant u destAddress loc none =
      ("EMERGENCY: " ++ u ++ " might be in trouble near "
        ++ (if destAddress = "" then "unknown spot" else destAddress)
        ++ ". Current Location: https://www.openstreetmap.org/?mlat="
        ++ toString loc.latitude ++ "&mlon=" ++ toString loc.longitude)
        ++ "" :=
  rfl

/-- Unfolding equation for the variant message with evidence URL. -/
theorem mkAlertMessageVariant_some (u destAddress : String)
    (loc : Coordinates) (url : String) :
    mkAlertMessageVariant u destAddress loc (some url) =
      mkAlertMessageVariant u destAddress loc none
        ++ " - Voice clip: " ++ url := by
  rw [mkAlertMessageVariant_none]
  show _ = _ ++ "" ++ " - Voice clip: " ++ url
  simp [mkAlertMessageVariant, String.append_assoc]

/-- The canonical message chain contains the four required segments. -/
theorem canonicalChain_contains (u dn lat lon : String) :
    ContainsStr ("EMERGENCY: Route deviation detected for " ++ u ++ " near "
      ++ dn ++ ". Current location: https://www.openstreetmap.org/?mlat="
      ++ lat ++ "&mlon=" ++ lon) "EMERGENCY" ∧
    ContainsStr ("EMERGENCY: Route deviation detected for " ++ u ++ " near "
      ++ dn ++ ". Current location: https://www.openstreetmap.org/?mlat="
      ++ lat ++ "&mlon=" ++ lon) u ∧
    ContainsStr ("EMERGENCY: Route deviation detected for " ++ u ++ " near "
      ++ dn ++ ". Current location: https://www.openstreetmap.org/?mlat="
      ++ lat ++ "&mlon=" ++ lon) dn ∧
    ContainsStr ("EMERGENCY: Route deviation detected for " ++ u ++ " near "
      ++ dn ++ ". Current location: https://www.openstreetmap.org/?mlat="
      ++ lat ++ "&mlon=" ++ lon)
      ("https://www.openstreetmap.org/?mlat=" ++ lat ++ "&mlon=" ++ lon) := by
  refine ⟨?_, ?_, ?_, ?_⟩
  · apply containsStr_appendL
    apply containsStr_appendL
    apply containsStr_appendL
    apply containsStr_appendL
    apply containsStr_appendL
    apply containsStr_appendL
    apply containsStr_appendL
    decide
  · apply containsStr_appendL
    apply containsStr_appendL
    apply containsStr_appendL
    apply containsStr_appendL
    apply containsStr_appendL
    apply containsStr_appendL
    exact containsStr_appendR _ _ _ (containsStr_refl u)
  · apply containsStr_appendL
    apply containsStr_appendL
    apply containsStr_appendL
    apply containsStr_appendL
    exact containsStr_appendR _ _ _ (containsStr_refl dn)
  · unfold ContainsStr
    refine ⟨("EMERGENCY: Route deviation detected for " ++ u ++ " near "
      ++ dn ++ ". Current location: ").data, [], ?_⟩
    have hsplit :
        (". Current location: https://www.openstreetmap.org/?mlat=").data =
          (". Current location: ").data
            ++ ("https://www.openstreetmap.org/?mlat=").data := rfl
    simp [string_data_append, hsplit, List.append_assoc]

/-- The variant message chain contains the four corresponding segments. -/
theorem variantChain_contains (u dn lat lon : String) :
    ContainsStr ("EMERGENCY: " ++ u ++ " might be in trouble near " ++ dn
      ++ ". Current Location: https://www.openstreetmap.org/?mlat="
      ++ lat ++ "&mlon=" ++ lon) "EMERGENCY" ∧
    ContainsStr ("EMERGENCY: " ++ u ++ " might be in trouble near " ++ dn
      ++ ". Current Location: https://www.openstreetmap.org/?mlat="
      ++ lat ++ "&mlon=" ++ lon) u ∧
    ContainsStr ("EMERGENCY: " ++ u ++ " might be in trouble near " ++ dn
      ++ ". Current Location: https://www.openstreetmap.org/?mlat="
      ++ lat ++ "&mlon=" ++ lon) dn ∧
    ContainsStr ("EMERGENCY: " ++ u ++ " might be in trouble near " ++ dn
      ++ ". Current Location: https://www.openstreetmap.org/?mlat="
      ++ lat ++ "&mlon=" ++ lon)
      ("https://www.openstreetmap.org/?mlat=" ++ lat ++ "&mlon=" ++ lon) := by
  refine ⟨?_, ?_, ?_, ?_⟩
  · apply containsStr_appendL
    apply containsStr_appendL
    apply containsStr_appendL
    apply containsStr_appendL
    apply containsStr_appendL
    apply containsStr_appendL
    apply containsStr_appendL
    decide
  · apply containsStr_appendL
    apply containsStr_appendL
    apply containsStr_appendL
    apply containsStr_appendL
    apply containsStr_appendL
    apply containsStr_appendL
    exact containsStr_appendR _ _ _ (containsStr_refl u)
  · apply containsStr_appendL
    apply containsStr_appendL
    apply containsStr_appendL
    apply containsStr_appendL
    exact containsStr_appendR _ _ _ (containsStr_refl dn)
  · unfold ContainsStr
    refine ⟨("EMERGENCY: " ++ u ++ " might be in trouble near " ++ dn
      ++ ". Current Location: ").data, [], ?_⟩
    have hsplit :
        (". Current Location: https://www.openstreetmap.org/?mlat=").data =
          (". Current Location: ").data
            ++ ("https://www.openstreetmap.org/?mlat=").data := rfl
    simp [string_data_append, hsplit, List.append_assoc]

/-- Every channel invocation produced by `sendEmergencyAlert` carries the
message built by `mkAlertMessage` with the fallback destination name. -/
theorem sendEmergencyAlert_message (contacts : List EmergencyContact)
    (u destAddress : String) (loc : Coordinates) (audioUrl : Option String)
    (env : SmsEnv) (nums : List String) (msg : String)
    (h : (sendEmergencyAlert contacts u destAddress (some loc) audioUrl
        env).2 = some (nums, msg)) :
    msg = mkAlertMessage u
      (if destAddress = "" then "unknown location" else destAddress) loc
      audioUrl := by
  unfold sendEmergencyAlert at h
  by_cases hc : contacts.length = 0
  · simp [hc] at h
  · by_cases ha : env.available = true
    · cases hr : env.sendResult with
      | none => simp [hc, ha, hr] at h; exact h.2.symm
      | some r => simp [hc, ha, hr] at h; exact h.2.symm
    · simp [hc, ha] at h

/-- Claim C9 (amended): every message the Main.tsx dispatcher hands to the
delivery channel contains the literal substring EMERGENCY, the display
name of the traveler, the destination label with fallback text
"unknown location" when no destination address is set, and the
OpenStreetMap link built from the latitude and longitude of the subject
coordinate; it ends with the trailing evidence segment exactly when an
evidence URL is present. The message of the `src/unnamed/part_000`
variant contains the same four components and the same conditional
trailing segment, except that its fallback destination label is
"unknown spot", not "unknown location". -/
theorem alert_message_template (contacts : List EmergencyContact)
    (u destAddress : String) (loc : Coordinates) (audioUrl : Option String)
    (env : SmsEnv) (nums : List String) (msg : String)
    (h : (sendEmergencyAlert contacts u destAddress (some loc) audioUrl
        env).2 = some (nums, msg)) :
    ContainsStr msg "EMERGENCY" ∧
    ContainsStr msg u ∧
    ContainsStr msg
      (if destAddress = "" then "unknown location" else destAddress) ∧
    ContainsStr msg ("https://www.openstreetmap.org/?mlat="
      ++ toString loc.latitude ++ "&mlon=" ++ toString loc.longitude) ∧
    (∀ url, audioUrl = some url →
      msg = mkAlertMessage u
        (if destAddress = "" then "unknown location" else destAddress) loc
        none ++ "\nEmergency recording: " ++ url) ∧
    (audioUrl = none →
      msg = mkAlertMessage u
        (if destAddress = "" then "unknown location" else destAddress) loc
        none) ∧
    ContainsStr (mkAlertMessageVariant u destAddress loc audioUrl)
      "EMERGENCY" ∧
    ContainsStr (mkAlertMessageVariant u destAddress loc audioUrl) u ∧
    ContainsStr (mkAlertMessageVariant u destAddress loc audioUrl)
      (if destAddress = "" then "unknown spot" else destAddress) ∧
    ContainsStr (mkAlertMessageVariant u destAddress loc audioUrl)
      ("https://www.openstreetmap.org/?mlat=" ++ toString loc.latitude
        ++ "&mlon=" ++ toString loc.longitude) ∧
    (∀ url, audioUrl = some url →
      mkAlertMessageVariant u destAddress loc audioUrl =
        mkAlertMessageVariant u destAddress loc none
          ++ " - Voice clip: " ++ url) := by
  have hmsg := sendEmergencyAlert_message contacts u destAddress loc
    audioUrl env nums msg h
  subst hmsg
  obtain ⟨hc1, hc2, hc3, hc4⟩ := canonicalChain_contains u
    (if destAddress = "" then "unknown location" else destAddress)
    (toString loc.latitude) (toString loc.longitude)
  obtain ⟨hv1, hv2, hv3, hv4⟩ := variantChain_contains u
    (if destAddress = "" then "unknown spot" else destAddress)
    (toString loc.latitude) (toString loc.longitude)
  cases audioUrl with
  | none =>
    refine ⟨?_, ?_, ?_, ?_, ?_, ?_, ?_, ?_, ?_, ?_, ?_⟩
    · rw [mkAlertMessage_none]; exact hc1
    · rw [mkAlertMessage_none]; exact hc2
    · rw [mkAlertMessage_none]; exact hc3
    · rw [mkAlertMessage_none]; exact hc4
    · exact fun url hurl => nomatch hurl
    · exact fun _ => rfl
    · rw [mkAlertMessageVariant_none]
      exact containsStr_appendL _ _ _ hv1
    · rw [mkAlertMessageVariant_none]
      exact containsStr_appendL _ _ _ hv2
    · rw [mkAlertMessageVariant_none]
      exact containsStr_appendL _ _ _ hv3
    · rw [mkAlertMessageVariant_none]
      exact containsStr_appendL _ _ _ hv4
    · exact fun url hurl => nomatch hurl
  | some url =>
    refine ⟨?_, ?_, ?_, ?_, ?_, ?_, ?_, ?_, ?_, ?_, ?_⟩
    · rw [mkAlertMessage_some, mkAlertMessage_none]
      exact containsStr_appendL _ _ _ (containsStr_appendL _ _ _ hc1)
    · rw [mkAlertMessage_some, mkAlertMessage_none]
      exact containsStr_appendL _ _ _ (containsStr_appendL _ _ _ hc2)
    · rw [mkAlertMessage_some, mkAlertMessage_none]
      exact containsStr_appendL _ _ _ (containsStr_appendL _ _ _ hc3)
    · rw [mkAlertMessage_some, mkAlertMessage_none]
      exact containsStr_appendL _ _ _ (containsStr_appendL _ _ _ hc4)
    · intro u2 hu2
      cases hu2
      exact mkAlertMessage_some u _ loc url
    · intro hnone
      exact nomatch hnone
    · rw [mkAlertMessageVariant_some, mkAlertMessageVariant_none]
      exact containsStr_appendL _ _ _ (containsStr_appendL _ _ _
        (containsStr_appendL _ _ _ hv1))
    · rw [mkAlertMessageVariant_some, mkAlertMessageVariant_none]
      exact containsStr_appendL _ _ _ (containsStr_appendL _ _ _
        (containsStr_appendL _ _ _ hv2))
    · rw [mkAlertMessageVariant_some, mkAlertMessageVariant_none]
      exact containsStr_appendL _ _ _ (containsStr_appendL _ _ _
        (containsStr_appendL _ _ _ hv3))
    · rw [mkAlertMessageVariant_some, mkAlertMessageVariant_none]
      exact containsStr_appendL _ _ _ (containsStr_appendL _ _ _
        (containsStr_appendL _ _ _ hv4))
    · intro u2 hu2
      cases hu2
      exact mkAlertMessageVariant_some u destAddress loc url

set_option maxRecDepth 8000 in
/-- Claim C9 counterexample: the variant message construction of
`src/unnamed/part_000`, cited by the claim, uses the fallback destination
label "unknown spot": with an empty destination address its message does
not contain the claimed fallback substring "unknown location" at all. -/
theorem variant_fallback_not_unknown_location :
    mkAlertMessageVariant "alice" "" coordW none =
      "EMERGENCY: alice might be in trouble near unknown spot. Current Location: https://www.openstreetmap.org/?mlat=19&mlon=72" ∧
    ¬ ContainsStr (mkAlertMessageVariant "alice" "" coordW none)
        "unknown location" := by
  constructor
  · decide
  · decide

set_option maxRecDepth 8000 in
/-- Witness for the amended claim C9: a concrete dispatch with one contact,
empty destination address and no evidence URL produces a message containing
both EMERGENCY and the fallback label "unknown location". -/
theorem alert_message_template_witness :
    ContainsStr "EMERGENCY: Route deviation detected for alice near unknown location. Current location: https://www.openstreetmap.org/?mlat=19&mlon=72"
      "unknown location" ∧
    ContainsStr "EMERGENCY: Route deviation detected for alice near unknown location. Current location: https://www.openstreetmap.org/?mlat=19&mlon=72"
      "EMERGENCY" := by
  have h := alert_message_template [contactW] "alice" "" coordW none
    ⟨true, some "sent"⟩ ["+15551234567"]
    "EMERGENCY: Route deviation detected for alice near unknown location. Current location: https://www.openstreetmap.org/?mlat=19&mlon=72"
    (by decide)
  exact ⟨by simpa using h.2.2.1, h.1⟩

/-! ## Claim C10 -/

/-- Claim C10: the recipient list handed to the delivery channel normalizes
every phone number deterministically — a number not starting with a plus
sign gets the fixed prefix +91 prepended and a number already starting with
a plus sign passes through unchanged — the list of recipients has exactly
one entry per contact, the entry at each position is the normalization of
the contact at the same position (order preserved), and the contact list
itself is left untouched by the pure mapping. -/
theorem phone_number_mapping (contacts : List EmergencyContact) :
    (phoneNumbersOf contacts).length = contacts.length ∧
    (∀ i (h1 : i < contacts.length)
        (h2 : i < (phoneNumbersOf contacts).length),
      (phoneNumbersOf contacts).get ⟨i, h2⟩ =
        (if strStartsWith (contacts.get ⟨i, h1⟩).phone_number "+"
         then (contacts.get ⟨i, h1⟩).phone_number
         else "+91" ++ (contacts.get ⟨i, h1⟩).phone_number)) ∧
    (∀ c : EmergencyContact, strStartsWith c.phone_number "+" = true →
      phoneNumbersOf [c] = [c.phone_number]) ∧
    (∀ c : EmergencyContact, ¬ strStartsWith c.phone_number "+" = true →
      phoneNumbersOf [c] = ["+91" ++ c.phone_number]) := by
  refine ⟨by simp [phoneNumbersOf], ?_, ?_, ?_⟩
  · intro i h1 h2
    simp only [phoneNumbersOf, List.get_eq_getElem, List.getElem_map]
    cases hb : strStartsWith (contacts.get ⟨i, h1⟩).phone_number "+" <;>
      simp only [List.get_eq_getElem] at hb <;> simp [hb]
  · intro c hc
    simp [phoneNumbersOf, hc]
  · intro c hc
    simp [phoneNumbersOf, hc]

/-- Witness for claim C10: a number without a plus sign gets +91 prepended
and a number with a plus sign passes through. -/
theorem phone_number_mapping_witness :
    phoneNumbersOf [contactW2] = ["+919876543210"] ∧
    phoneNumbersOf [contactW] = ["+15551234567"] := by
  constructor
  · have h := phone_number_mapping [contactW2]
    exact h.2.2.2 contactW2 (by decide)
  · have h := phone_number_mapping [contactW]
    exact h.2.2.1 contactW (by decide)

end WomenSafety
